import Mathlib

/-!
# Momentum-error collision observer

A shallow embedding of `src/src/CollisionDetectionMomentumError.cpp`
(the plugin `mc_plugin::CollisionDetectionMomentumError`) and the properties
of one control cycle of `before()`.

Modelling conventions.

* `double` is modelled by the exact rationals `ℚ`; every arithmetic statement
  below is a statement about the exact arithmetic of the formulas in the code.
* An `Eigen::VectorXd` of size `jointNumber` is a function `Fin N → ℚ`, an
  `N × N` Eigen matrix is a `Matrix (Fin N) (Fin N) ℚ`.
* The member fields of the plugin object form the record
  `CollisionDetectionMomentumError N`; what the plugin reads from the
  controller in a cycle (outputs of the rigid-body-dynamics library, sensor
  vectors, the datastore entry) forms the record `Controller N`.
* GUI and logging registration (`addGui`, `addLog`, `addPlot`) only install
  callbacks and are not modelled.
-/

namespace mc_plugin

/-- Joint-space vector of dimension `N` (an `Eigen::VectorXd` of size `jointNumber`). -/
abbrev Vec (N : Nat) := Fin N → ℚ

/-- Square joint-space matrix (an `Eigen::MatrixXd` of size `jointNumber × jointNumber`). -/
abbrev Mat (N : Nat) := Matrix (Fin N) (Fin N) ℚ

/-- Modelled from the spec: the class of the member `lpf_threshold_` (its header is not
under src/). Section 4.2 gives its state: per joint a filtered-magnitude accumulator `m`,
an additive offset `o` and a filter coefficient `f`. -/
structure LpfThreshold (N : Nat) where
  /-- additive offset `o` -/
  offset : ℚ
  /-- filter coefficient `f` -/
  filtering : ℚ
  /-- per-joint filtered-magnitude accumulator `m` -/
  m : Vec N

/-- Modelled from the spec: `LpfThreshold::setValues(offset, filtering, jointNumber)`, absent
from src/. Section 4.2: "at initialization `m = 0` for all joints"; the offset and the
coefficient are the two values passed by `init()`. -/
def LpfThreshold.setValues {N : Nat} (_l : LpfThreshold N) (offset filtering : ℚ) :
    LpfThreshold N :=
  { offset := offset, filtering := filtering, m := fun _ => 0 }

/-- Modelled from the spec: `LpfThreshold::adaptiveThreshold(residual, isHighBound)`, absent
from src/. Section 4.2: for each joint independently `m ← f·m + (1−f)·|residual|`, the bound
value is `isHighBound ? (m + o) : −(m + o)`, and the full per-joint bound vector of the
requested side is returned. Section 3: the filter state is mutated once per cycle. A cycle
asks for the two sides in turn, the high side first (source lines 120-121), so the one
accumulator step of the cycle is taken in the high-side call and the low-side call returns
`−(m + o)` for the accumulator of that cycle. The result is the pair of the filter after the
call and the returned bound vector. -/
def LpfThreshold.adaptiveThreshold {N : Nat} (l : LpfThreshold N) (residual : Vec N)
    (isHighBound : Bool) : LpfThreshold N × Vec N :=
  if isHighBound then
    let m : Vec N := fun i => l.filtering * l.m i + (1 - l.filtering) * |residual i|
    ({ l with m := m }, fun i => m i + l.offset)
  else
    (l, fun i => -(l.m i + l.offset))

/-- What the plugin reads from the controller: the control timestep, the encoder velocity
feed (possibly empty), the joint velocities of the control robot and of the real robot, the
matrices and vectors returned by the rigid-body-dynamics evaluators for the current robot
configuration, the measured joint torques, and the datastore entry "Obstacle detected"
(`none` when the entry does not exist). -/
structure Controller (N : Nat) where
  /-- value of `ctl.timestep()` -/
  timestep : ℚ
  /-- value of `ctl.robot().encoderVelocities()` -/
  encoderVelocities : List ℚ
  /-- velocities `robot.alpha()` read in reference joint order (used by `init`) -/
  robot_alpha : Vec N
  /-- vector `qdot` filled by `rbd::paramToVector(realRobot.alpha(), qdot)` -/
  realRobot_alpha : Vec N
  /-- value of `forwardDynamics.H()` after `computeH` -/
  H : Mat N
  /-- value of `forwardDynamics.HIr()` after `computeH` -/
  HIr : Mat N
  /-- value of `forwardDynamics.C()` after `computeC` -/
  C : Vec N
  /-- value of `coriolis->coriolis(realRobot.mb(), realRobot.mbc())` -/
  coriolisMatrix : Mat N
  /-- value of `realRobot.jointTorques()` -/
  jointTorques : Vec N
  /-- the datastore entry "Obstacle detected" -/
  datastore : Option Bool

/-- The member fields of the plugin object. The fields that `init()` does not assign
(`alpha_1`, `alpha_2`, `threshold_offset_`, `threshold_filtering_`, the switches, `counter`,
`jointShown`) keep the default values of the class declaration, which are parameters here. -/
structure CollisionDetectionMomentumError (N : Nat) where
  dt : ℚ
  counter : ℚ
  alpha_1 : ℚ
  alpha_2 : ℚ
  threshold_offset_ : ℚ
  threshold_filtering_ : ℚ
  jointShown : Int
  activate_plot_ : Bool
  plot_added_ : Bool
  collision_stop_activated_ : Bool
  obstacle_detected_ : Bool
  momentum : Vec N
  gamma : Vec N
  momentum_hat : Vec N
  momentum_hat_dot : Vec N
  tau_ext_hat : Vec N
  tau_ext_hat_dot : Vec N
  tau : Vec N
  momentum_error : Vec N
  momentum_error_high_ : Vec N
  momentum_error_low_ : Vec N
  lpf_threshold_ : LpfThreshold N

/-- The body of `init()` (source lines 11-69): the datastore entry is created with value
`false` when absent, every vector is assigned, the estimate is seeded with the momentum of
the initial configuration, both bound vectors are set to zero and the threshold filter is
configured. -/
def CollisionDetectionMomentumError.init {N : Nat} (self : CollisionDetectionMomentumError N)
    (ctl : Controller N) : CollisionDetectionMomentumError N × Controller N :=
  let datastore : Option Bool :=
    match ctl.datastore with
    | none => some false
    | some b => some b
  let qdot : Vec N := ctl.robot_alpha
  let inertiaMatrix : Mat N := ctl.H - ctl.HIr
  let momentum : Vec N := inertiaMatrix.mulVec qdot
  let tau : Vec N := ctl.jointTorques
  let coriolisMatrix : Mat N := ctl.coriolisMatrix
  let coriolisGravityTerm : Vec N := ctl.C
  let gamma : Vec N := fun i =>
    tau i + (coriolisMatrix + coriolisMatrix.transpose).mulVec qdot i - coriolisGravityTerm i
  let momentum_hat : Vec N := momentum
  ({ self with
      dt := ctl.timestep
      momentum := momentum
      gamma := gamma
      momentum_hat := momentum_hat
      momentum_hat_dot := fun _ => 0
      tau_ext_hat := fun _ => 0
      tau_ext_hat_dot := fun _ => 0
      tau := tau
      momentum_error := fun i => momentum i - momentum_hat i
      momentum_error_high_ := fun _ => 0
      momentum_error_low_ := fun _ => 0
      lpf_threshold_ :=
        self.lpf_threshold_.setValues self.threshold_offset_ self.threshold_filtering_ },
   { ctl with datastore := datastore })

/-- The body of `computeGammaAndMomentum()` (source lines 71-95): when the encoder velocity
feed is empty the function returns at once and no member is touched; otherwise `momentum`,
`tau` and `gamma` are recomputed from the current dynamics outputs. -/
def CollisionDetectionMomentumError.computeGammaAndMomentum {N : Nat}
    (self : CollisionDetectionMomentumError N) (ctl : Controller N) :
    CollisionDetectionMomentumError N :=
  if ctl.encoderVelocities.isEmpty then
    self
  else
    let qdot : Vec N := ctl.realRobot_alpha
    let inertiaMatrix : Mat N := ctl.H - ctl.HIr
    let momentum : Vec N := inertiaMatrix.mulVec qdot
    let tau : Vec N := ctl.jointTorques
    let coriolisMatrix : Mat N := ctl.coriolisMatrix
    let coriolisGravityTerm : Vec N := ctl.C
    let gamma : Vec N := fun i =>
      tau i + (coriolisMatrix + coriolisMatrix.transpose).mulVec qdot i - coriolisGravityTerm i
    { self with momentum := momentum, tau := tau, gamma := gamma }

/-- The detection loop of `before()` (source lines 123-136), started with
`obstacle_detected_ = false`: the joints are visited in index order; at the first joint whose
residual lies above the high bound or below the low bound, `obstacle_detected_` becomes
`true`, the datastore entry is overwritten with it when `collision_stop_activated_` holds,
and the loop is left (`break`). The result is the pair of `obstacle_detected_` and the
datastore entry after the loop. The assignment goes through `get<bool>`, which needs an
existing entry; `init()` creates the entry, so it exists in every cycle, and an absent entry
stays absent here. The loop counter is a C++ `int`; joint counts are far below its range. -/
def detectionLoop {N : Nat} (momentum_error momentum_error_high_ momentum_error_low_ : Vec N)
    (collision_stop_activated_ : Bool) : List (Fin N) → Option Bool → Bool × Option Bool
  | [], datastore => (false, datastore)
  | i :: rest, datastore =>
    if momentum_error i > momentum_error_high_ i ∨ momentum_error i < momentum_error_low_ i then
      let obstacle_detected_ := true
      (obstacle_detected_,
        if collision_stop_activated_ then datastore.map (fun _ => obstacle_detected_)
        else datastore)
    else
      detectionLoop momentum_error momentum_error_high_ momentum_error_low_
        collision_stop_activated_ rest datastore

/-- The body of `before()` (source lines 102-138): one control cycle. The time counter is
advanced, the plot is registered once when requested, the snapshot quantities are refreshed by
`computeGammaAndMomentum`, the residual is formed (line 114), both estimates are advanced by
one Euler step (lines 115-118), the threshold filter is called for the high side and then for
the low side (lines 120-121), and the detection loop runs (lines 123-136). The result is the
plugin object and the controller after the cycle. -/
def CollisionDetectionMomentumError.before {N : Nat} (self : CollisionDetectionMomentumError N)
    (ctl : Controller N) : CollisionDetectionMomentumError N × Controller N :=
  let s0 := { self with counter := self.counter + self.dt }
  let s1 := if s0.activate_plot_ && !s0.plot_added_ then { s0 with plot_added_ := true } else s0
  let s2 := s1.computeGammaAndMomentum ctl
  let momentum_error : Vec N := fun i => s2.momentum i - s2.momentum_hat i
  let momentum_hat_dot : Vec N := fun i =>
    s2.gamma i + s2.tau_ext_hat i + s2.alpha_1 * momentum_error i
  let tau_ext_hat_dot : Vec N := fun i => s2.alpha_2 * momentum_error i
  let momentum_hat : Vec N := fun i => s2.momentum_hat i + momentum_hat_dot i * s2.dt
  let tau_ext_hat : Vec N := fun i => s2.tau_ext_hat i + tau_ext_hat_dot i * s2.dt
  let high := s2.lpf_threshold_.adaptiveThreshold momentum_error true
  let low := high.1.adaptiveThreshold momentum_error false
  let scan := detectionLoop momentum_error high.2 low.2 s2.collision_stop_activated_
    (List.finRange N) ctl.datastore
  ({ s2 with
      momentum_error := momentum_error
      momentum_hat_dot := momentum_hat_dot
      tau_ext_hat_dot := tau_ext_hat_dot
      momentum_hat := momentum_hat
      tau_ext_hat := tau_ext_hat
      momentum_error_high_ := high.2
      momentum_error_low_ := low.2
      lpf_threshold_ := low.1
      obstacle_detected_ := scan.1 },
   { ctl with datastore := scan.2 })

/-- The aggregate of section 2 ("true if any joint's residual breaches its band"), read as a
scan of all joints without early exit. -/
def scanAllJoints {N : Nat} (r r_high r_low : Vec N) : Bool :=
  (List.finRange N).foldl (fun acc i => acc || decide (r i > r_high i ∨ r i < r_low i)) false

/-! ## Concrete inputs

A single-joint robot (`N = 1`) with the numbers of the scenario of section 8:
`Δt = 1/200`, `α₁ = 10`, `α₂ = 5`, `o = 1/10`, `f = 9/10`, initial momentum `2`. -/

/-- A plugin object before `init()`: the tunable members hold the scenario values, the stop
switch is on, every vector is still zero. -/
def selfDefault : CollisionDetectionMomentumError 1 :=
  { dt := 0, counter := 0, alpha_1 := 10, alpha_2 := 5, threshold_offset_ := 1/10,
    threshold_filtering_ := 9/10, jointShown := 0, activate_plot_ := false,
    plot_added_ := false, collision_stop_activated_ := true, obstacle_detected_ := false,
    momentum := fun _ => 0, gamma := fun _ => 0, momentum_hat := fun _ => 0,
    momentum_hat_dot := fun _ => 0, tau_ext_hat := fun _ => 0, tau_ext_hat_dot := fun _ => 0,
    tau := fun _ => 0, momentum_error := fun _ => 0, momentum_error_high_ := fun _ => 0,
    momentum_error_low_ := fun _ => 0,
    lpf_threshold_ := { offset := 0, filtering := 0, m := fun _ => 0 } }

/-- The controller at start-up: inertia `1`, no rotor inertia, joint velocity `2` (so the
momentum is `2`), joint torque `1`, no Coriolis and bias terms (so `γ = 1`), velocity feed
present, datastore entry not yet created. -/
def ctlStart : Controller 1 :=
  { timestep := 1/200, encoderVelocities := [2], robot_alpha := fun _ => 2,
    realRobot_alpha := fun _ => 2, H := fun _ _ => 1, HIr := fun _ _ => 0, C := fun _ => 0,
    coriolisMatrix := fun _ _ => 0, jointTorques := fun _ => 1, datastore := none }

/-- The same robot one cycle later with the datastore entry present and `false`. -/
def ctlSame : Controller 1 :=
  { ctlStart with datastore := some false }

/-- A disturbance: the joint velocity, hence the momentum, jumps to `5/2`. -/
def ctlJump : Controller 1 :=
  { ctlStart with realRobot_alpha := fun _ => 5/2, datastore := some false }

/-- A cycle in which the encoder velocity feed is empty. -/
def ctlDropout : Controller 1 :=
  { ctlStart with encoderVelocities := [], datastore := some false }

/-- A quiet cycle entered with the datastore entry already `true`. -/
def ctlFlagSet : Controller 1 :=
  { ctlStart with datastore := some true }

/-- The robot at rest: as `ctlSame` but with joint torque `0`, so `γ = 0`. -/
def ctlRest : Controller 1 :=
  { ctlStart with jointTorques := fun _ => 0, datastore := some false }

/-- The plugin right after `init()` on `ctlStart`. -/
def startState : CollisionDetectionMomentumError 1 :=
  (selfDefault.init ctlStart).1

/-- The plugin right after `init()` with the stop switch off. -/
def stopOffState : CollisionDetectionMomentumError 1 :=
  (({ selfDefault with collision_stop_activated_ := false } :
    CollisionDetectionMomentumError 1).init ctlStart).1

/-- A zero-residual state (`p = p̂ = 2`, `τ̂_ext = 0`, `γ = 1`) whose filter has coefficient
`1/2` and a non-zero accumulator `m = 1`. -/
def restState : CollisionDetectionMomentumError 1 :=
  { startState with lpf_threshold_ := { offset := 1/10, filtering := 1/2, m := fun _ => 1 } }

/-- The loop reports a detection exactly when some visited joint breaches its band. -/
theorem detectionLoop_fst {N : Nat} (r hi lo : Vec N) (stop : Bool) (l : List (Fin N))
    (ds : Option Bool) :
    (detectionLoop r hi lo stop l ds).1 = true ↔ ∃ i ∈ l, r i > hi i ∨ r i < lo i := by
  induction l with
  | nil => simp [detectionLoop]
  | cons a l ih =>
    by_cases h : r a > hi a ∨ r a < lo a
    · simp [detectionLoop, h]
    · simp [detectionLoop, h, ih]

/-- The loop overwrites the datastore entry only when the stop switch is on and a breach was
found, and then with `true`. -/
theorem detectionLoop_snd {N : Nat} (r hi lo : Vec N) (stop : Bool) (l : List (Fin N))
    (ds : Option Bool) :
    (detectionLoop r hi lo stop l ds).2 =
      if stop = true ∧ (detectionLoop r hi lo stop l ds).1 = true
      then ds.map (fun _ => true) else ds := by
  induction l with
  | nil => simp [detectionLoop]
  | cons a l ih =>
    by_cases h : r a > hi a ∨ r a < lo a
    · cases stop <;> simp [detectionLoop, h]
    · simp only [detectionLoop, if_neg h, ih]

/-- The scan without early exit is true exactly when some joint breaches its band. -/
theorem scanAllJoints_eq_true {N : Nat} (r hi lo : Vec N) :
    scanAllJoints r hi lo = true ↔ ∃ i : Fin N, r i > hi i ∨ r i < lo i := by
  have key : ∀ (l : List (Fin N)) (b : Bool),
      List.foldl (fun acc i => acc || decide (r i > hi i ∨ r i < lo i)) b l = true ↔
        b = true ∨ ∃ i ∈ l, r i > hi i ∨ r i < lo i := by
    intro l
    induction l with
    | nil => intro b; simp
    | cons a l ih =>
      intro b
      rw [List.foldl_cons, ih]
      cases b <;> simp
  unfold scanAllJoints
  rw [key]
  simp [List.mem_finRange]

/-- The two results of the detection step of a cycle, in terms of the loop run on the
residual and the bounds that the cycle stores. -/
theorem before_detection {N : Nat} (self : CollisionDetectionMomentumError N)
    (ctl : Controller N) :
    (self.before ctl).1.obstacle_detected_ =
      (detectionLoop (self.before ctl).1.momentum_error (self.before ctl).1.momentum_error_high_
        (self.before ctl).1.momentum_error_low_ self.collision_stop_activated_
        (List.finRange N) ctl.datastore).1 ∧
    (self.before ctl).2.datastore =
      (detectionLoop (self.before ctl).1.momentum_error (self.before ctl).1.momentum_error_high_
        (self.before ctl).1.momentum_error_low_ self.collision_stop_activated_
        (List.finRange N) ctl.datastore).2 := by
  cases h1 : self.activate_plot_ <;> cases h2 : self.plot_added_ <;>
  cases h3 : ctl.encoderVelocities.isEmpty <;>
  simp [CollisionDetectionMomentumError.before,
    CollisionDetectionMomentumError.computeGammaAndMomentum, h1, h2, h3]

/-- A non-empty velocity feed is not reported empty. -/
theorem isEmpty_false_of_ne_nil {l : List ℚ} (h : l ≠ []) : l.isEmpty = false := by
  cases l with
  | nil => exact absurd rfl h
  | cons a t => rfl

/-- The estimator part of a cycle, written out field by field. Here
`self.computeGammaAndMomentum ctl` carries the momentum and the drift term that the cycle
works with (recomputed from the snapshot, or held when the velocity feed is empty). -/
theorem before_estimator {N : Nat} (self : CollisionDetectionMomentumError N)
    (ctl : Controller N) :
    (self.before ctl).1.momentum = (self.computeGammaAndMomentum ctl).momentum ∧
    (self.before ctl).1.gamma = (self.computeGammaAndMomentum ctl).gamma ∧
    (self.before ctl).1.tau = (self.computeGammaAndMomentum ctl).tau ∧
    (self.before ctl).1.momentum_error =
      (fun i => (self.computeGammaAndMomentum ctl).momentum i - self.momentum_hat i) ∧
    (self.before ctl).1.momentum_hat =
      (fun i => self.momentum_hat i
        + ((self.computeGammaAndMomentum ctl).gamma i + self.tau_ext_hat i
            + self.alpha_1 * ((self.computeGammaAndMomentum ctl).momentum i
                - self.momentum_hat i)) * self.dt) ∧
    (self.before ctl).1.tau_ext_hat =
      (fun i => self.tau_ext_hat i
        + self.alpha_2 * ((self.computeGammaAndMomentum ctl).momentum i
            - self.momentum_hat i) * self.dt) := by
  cases h1 : self.activate_plot_ <;> cases h2 : self.plot_added_ <;>
  cases h3 : ctl.encoderVelocities.isEmpty <;>
  simp [CollisionDetectionMomentumError.before,
    CollisionDetectionMomentumError.computeGammaAndMomentum, h1, h2, h3]

/-- The threshold part of a cycle: the filter is called twice on the residual of the cycle,
first for the high side, then, on the filter left by the first call, for the low side. -/
theorem before_threshold {N : Nat} (self : CollisionDetectionMomentumError N)
    (ctl : Controller N) :
    (self.before ctl).1.momentum_error_high_ =
      (self.lpf_threshold_.adaptiveThreshold (self.before ctl).1.momentum_error true).2 ∧
    (self.before ctl).1.momentum_error_low_ =
      (LpfThreshold.adaptiveThreshold
        (self.lpf_threshold_.adaptiveThreshold (self.before ctl).1.momentum_error true).1
        (self.before ctl).1.momentum_error false).2 ∧
    (self.before ctl).1.lpf_threshold_ =
      (LpfThreshold.adaptiveThreshold
        (self.lpf_threshold_.adaptiveThreshold (self.before ctl).1.momentum_error true).1
        (self.before ctl).1.momentum_error false).1 := by
  cases h1 : self.activate_plot_ <;> cases h2 : self.plot_added_ <;>
  cases h3 : ctl.encoderVelocities.isEmpty <;>
  simp [CollisionDetectionMomentumError.before,
    CollisionDetectionMomentumError.computeGammaAndMomentum, h1, h2, h3]

/-- With an empty velocity feed `computeGammaAndMomentum` returns the object untouched. -/
theorem computeGammaAndMomentum_of_empty {N : Nat} (self : CollisionDetectionMomentumError N)
    (ctl : Controller N) (hv : ctl.encoderVelocities = []) :
    self.computeGammaAndMomentum ctl = self := by
  simp [CollisionDetectionMomentumError.computeGammaAndMomentum, hv]

/-- Feeding the controller left by a cycle to the next cycle presents the same snapshot: the
momentum and the drift term that the second cycle works with are those of the first. -/
theorem computeGammaAndMomentum_same_snapshot {N : Nat}
    (self : CollisionDetectionMomentumError N) (ctl : Controller N) :
    ((self.before ctl).1.computeGammaAndMomentum (self.before ctl).2).momentum =
      (self.computeGammaAndMomentum ctl).momentum ∧
    ((self.before ctl).1.computeGammaAndMomentum (self.before ctl).2).gamma =
      (self.computeGammaAndMomentum ctl).gamma := by
  cases h1 : self.activate_plot_ <;> cases h2 : self.plot_added_ <;>
  cases h3 : ctl.encoderVelocities.isEmpty <;>
  simp [CollisionDetectionMomentumError.before,
    CollisionDetectionMomentumError.computeGammaAndMomentum, h1, h2, h3]

/-- The filter part of a cycle, written out: the accumulator takes one step with the
residual magnitude of the cycle, the coefficient and the offset are kept, and both stored
bounds are built on the accumulator that the cycle leaves. -/
theorem before_filter_step {N : Nat} (self : CollisionDetectionMomentumError N)
    (ctl : Controller N) (i : Fin N) :
    (self.before ctl).1.lpf_threshold_.m i =
      self.lpf_threshold_.filtering * self.lpf_threshold_.m i
        + (1 - self.lpf_threshold_.filtering) * |(self.before ctl).1.momentum_error i| ∧
    (self.before ctl).1.lpf_threshold_.filtering = self.lpf_threshold_.filtering ∧
    (self.before ctl).1.lpf_threshold_.offset = self.lpf_threshold_.offset ∧
    (self.before ctl).1.momentum_error_high_ i =
      (self.before ctl).1.lpf_threshold_.m i + (self.before ctl).1.lpf_threshold_.offset ∧
    (self.before ctl).1.momentum_error_low_ i =
      -((self.before ctl).1.lpf_threshold_.m i + (self.before ctl).1.lpf_threshold_.offset) := by
  obtain ⟨h1, h2, h3⟩ := before_threshold self ctl
  rw [h1, h2, h3]
  simp [LpfThreshold.adaptiveThreshold]

/-- C1: at the end of a cycle of `before()`, `obstacle_detected_` is true if and only if some
joint `i` has `r[i] > r_high[i]` or `r[i] < r_low[i]` for the residual and the bounds of that
cycle; the value does not depend on what `obstacle_detected_` held before the cycle; and the
short-circuit loop gives the same boolean as a scan of all joints. This holds for every `N`,
in particular for every `N > 0`. -/
theorem C1_detected_iff_some_joint_breaches {N : Nat}
    (self : CollisionDetectionMomentumError N) (ctl : Controller N) :
    ((self.before ctl).1.obstacle_detected_ = true ↔
      ∃ i : Fin N,
        (self.before ctl).1.momentum_error i > (self.before ctl).1.momentum_error_high_ i ∨
        (self.before ctl).1.momentum_error i < (self.before ctl).1.momentum_error_low_ i) ∧
    (∀ previous : Bool,
      (({ self with obstacle_detected_ := previous } :
          CollisionDetectionMomentumError N).before ctl).1.obstacle_detected_ =
        (self.before ctl).1.obstacle_detected_) ∧
    (self.before ctl).1.obstacle_detected_ =
      scanAllJoints (self.before ctl).1.momentum_error (self.before ctl).1.momentum_error_high_
        (self.before ctl).1.momentum_error_low_ := by
  have hiff : (self.before ctl).1.obstacle_detected_ = true ↔
      ∃ i : Fin N,
        (self.before ctl).1.momentum_error i > (self.before ctl).1.momentum_error_high_ i ∨
        (self.before ctl).1.momentum_error i < (self.before ctl).1.momentum_error_low_ i := by
    rw [(before_detection self ctl).1, detectionLoop_fst]
    simp [List.mem_finRange]
  refine ⟨hiff, ?_, ?_⟩
  · intro previous
    cases h1 : self.activate_plot_ <;> cases h2 : self.plot_added_ <;>
    cases h3 : ctl.encoderVelocities.isEmpty <;>
    simp [CollisionDetectionMomentumError.before,
      CollisionDetectionMomentumError.computeGammaAndMomentum, h1, h2, h3]
  · rw [Bool.eq_iff_iff, hiff, scanAllJoints_eq_true]

/-- C2: when velocity data is available, one cycle of `before()` is an explicit Euler step.
With `p` and `γ` the momentum and the drift term computed from the snapshot of the cycle,
`p̂' = p̂ + (γ + τ̂_ext + α₁·(p − p̂))·Δt` and `τ̂_ext' = τ̂_ext + α₂·(p − p̂)·Δt` in every joint,
where `p̂` and `τ̂_ext` on the right are the values before the cycle. -/
theorem C2_explicit_euler_step {N : Nat} (self : CollisionDetectionMomentumError N)
    (ctl : Controller N) (p γ : Vec N) (hv : ctl.encoderVelocities ≠ [])
    (hp : p = (ctl.H - ctl.HIr).mulVec ctl.realRobot_alpha)
    (hγ : γ = fun i => ctl.jointTorques i
      + (ctl.coriolisMatrix + ctl.coriolisMatrix.transpose).mulVec ctl.realRobot_alpha i
      - ctl.C i)
    (i : Fin N) :
    (self.before ctl).1.momentum_hat i =
      self.momentum_hat i
        + (γ i + self.tau_ext_hat i + self.alpha_1 * (p i - self.momentum_hat i)) * self.dt ∧
    (self.before ctl).1.tau_ext_hat i =
      self.tau_ext_hat i + self.alpha_2 * (p i - self.momentum_hat i) * self.dt := by
  subst hp hγ
  have hv1 := isEmpty_false_of_ne_nil hv
  cases h1 : self.activate_plot_ <;> cases h2 : self.plot_added_ <;>
  simp [CollisionDetectionMomentumError.before,
    CollisionDetectionMomentumError.computeGammaAndMomentum, hv1, h1, h2]

/-- Witness of C2: the disturbance cycle of the scenario (`p̂ = 2`, `τ̂_ext = 0`, `γ = 1`,
`p = 5/2`, `α₁ = 10`, `α₂ = 5`, `Δt = 1/200`) gives `p̂' = 203/100` and `τ̂_ext' = 1/80`. -/
theorem C2_explicit_euler_step_witness :
    ctlJump.encoderVelocities ≠ [] ∧
    (startState.before ctlJump).1.momentum_hat 0 = 203/100 ∧
    (startState.before ctlJump).1.tau_ext_hat 0 = 1/80 := by
  have hv : ctlJump.encoderVelocities ≠ [] := by simp [ctlJump, ctlStart]
  have h := C2_explicit_euler_step startState ctlJump (fun _ => 5/2) (fun _ => 1) hv
    (by funext i; simp [ctlJump, ctlStart, Matrix.mulVec, Matrix.dotProduct])
    (by funext i; simp [ctlJump, ctlStart, Matrix.mulVec, Matrix.dotProduct]) 0
  refine ⟨hv, ?_, ?_⟩
  · rw [h.1]
    simp [startState, selfDefault, ctlStart, CollisionDetectionMomentumError.init,
      Matrix.mulVec, Matrix.dotProduct]
    norm_num
  · rw [h.2]
    simp [startState, selfDefault, ctlStart, CollisionDetectionMomentumError.init,
      Matrix.mulVec, Matrix.dotProduct]
    norm_num

/-- C6: in a cycle of `before()` run with `collision_stop_activated_` off, the datastore entry
"Obstacle detected" after the cycle equals the entry before the cycle, for every residual and
every bounds, also when the cycle computes `obstacle_detected_ = true`. -/
theorem C6_flag_unchanged_when_stop_off {N : Nat} (self : CollisionDetectionMomentumError N)
    (ctl : Controller N) (hstop : self.collision_stop_activated_ = false) :
    (self.before ctl).2.datastore = ctl.datastore := by
  rw [(before_detection self ctl).2, detectionLoop_snd, hstop]
  simp

/-- Witness of C6: with the switch off, the disturbance cycle detects a breach and leaves the
entry at `false`. -/
theorem C6_flag_unchanged_when_stop_off_witness :
    stopOffState.collision_stop_activated_ = false ∧
    (stopOffState.before ctlJump).1.obstacle_detected_ = true ∧
    (stopOffState.before ctlJump).2.datastore = some false := by
  have hstop : stopOffState.collision_stop_activated_ = false := by
    simp [stopOffState, selfDefault, CollisionDetectionMomentumError.init]
  refine ⟨hstop, ?_, ?_⟩
  · simp [CollisionDetectionMomentumError.before,
      CollisionDetectionMomentumError.computeGammaAndMomentum,
      CollisionDetectionMomentumError.init, LpfThreshold.adaptiveThreshold,
      LpfThreshold.setValues, detectionLoop, List.finRange, stopOffState, selfDefault,
      ctlStart, ctlJump, Matrix.mulVec, Matrix.dotProduct]
    norm_num [abs_eq_max_neg, max_def]
  · rw [C6_flag_unchanged_when_stop_off stopOffState ctlJump hstop]
    simp [ctlJump]

/-- C3, counterexample: in the disturbance cycle (`p̂ = 2` before, `p = 5/2`) the residual
that the cycle stores, filters and compares is `1/2 = p − p̂`, while `p − p̂'` with the
updated estimate `p̂' = 203/100` is `47/100`. -/
theorem C3_residual_is_not_recomputed :
    (startState.before ctlJump).1.momentum_error 0 = 1/2 ∧
    (startState.before ctlJump).1.momentum_hat 0 = 203/100 ∧
    (startState.before ctlJump).1.momentum 0 - (startState.before ctlJump).1.momentum_hat 0
      = 47/100 := by
  simp [CollisionDetectionMomentumError.before,
    CollisionDetectionMomentumError.computeGammaAndMomentum,
    CollisionDetectionMomentumError.init, startState, selfDefault, ctlStart, ctlJump,
    Matrix.mulVec, Matrix.dotProduct]
  norm_num

/-- C3, amended: in every cycle of `before()` the residual `r` that is stored, passed to both
calls of the adaptive threshold filter and compared with `r_high`/`r_low` in the detection
decision equals `p − p̂`, where `p` is the momentum of the current cycle and `p̂` is the
estimate carried over from the previous cycle (the value before the Euler update of this
cycle). -/
theorem C3_residual_uses_estimate_before_update {N : Nat}
    (self : CollisionDetectionMomentumError N) (ctl : Controller N) :
    (∀ i : Fin N, (self.before ctl).1.momentum_error i =
      (self.before ctl).1.momentum i - self.momentum_hat i) ∧
    (self.before ctl).1.momentum_error_high_ =
      (self.lpf_threshold_.adaptiveThreshold
        (fun i => (self.before ctl).1.momentum i - self.momentum_hat i) true).2 ∧
    (self.before ctl).1.momentum_error_low_ =
      (LpfThreshold.adaptiveThreshold
        (self.lpf_threshold_.adaptiveThreshold
          (fun i => (self.before ctl).1.momentum i - self.momentum_hat i) true).1
        (fun i => (self.before ctl).1.momentum i - self.momentum_hat i) false).2 ∧
    ((self.before ctl).1.obstacle_detected_ = true ↔
      ∃ i : Fin N,
        (self.before ctl).1.momentum i - self.momentum_hat i
          > (self.before ctl).1.momentum_error_high_ i ∨
        (self.before ctl).1.momentum i - self.momentum_hat i
          < (self.before ctl).1.momentum_error_low_ i) := by
  have he : (self.before ctl).1.momentum_error =
      fun i => (self.before ctl).1.momentum i - self.momentum_hat i := by
    rw [(before_estimator self ctl).2.2.2.1, (before_estimator self ctl).1]
  refine ⟨fun i => congrFun he i, ?_, ?_, ?_⟩
  · rw [← he]; exact (before_threshold self ctl).1
  · rw [← he]; exact (before_threshold self ctl).2.1
  · rw [(before_detection self ctl).1, detectionLoop_fst, he]
    simp [List.mem_finRange]

/-- C4, counterexample: right after `init()` (`p̂ = 2`, `γ = 1`, zero residual), a cycle with
an empty velocity feed moves the estimate to `401/200`. -/
theorem C4_dropout_cycle_changes_estimate :
    ctlDropout.encoderVelocities = [] ∧
    startState.momentum_hat 0 = 2 ∧
    (startState.before ctlDropout).1.momentum_hat 0 = 401/200 := by
  simp [CollisionDetectionMomentumError.before,
    CollisionDetectionMomentumError.computeGammaAndMomentum,
    CollisionDetectionMomentumError.init, startState, selfDefault, ctlStart, ctlDropout,
    Matrix.mulVec, Matrix.dotProduct]
  norm_num

/-- C4, amended: if the velocity data is unavailable in a cycle, `computeGammaAndMomentum`
leaves the object untouched, so the momentum `p`, the drift term `γ` and the torque `τ` keep
the values of the previous cycle; `before()` then performs its usual update with these held
values: `p̂' = p̂ + (γ + τ̂_ext + α₁·(p − p̂))·Δt`, `τ̂_ext' = τ̂_ext + α₂·(p − p̂)·Δt`, and the
filter is fed the residual `p − p̂`. -/
theorem C4_dropout_holds_snapshot_and_updates {N : Nat}
    (self : CollisionDetectionMomentumError N) (ctl : Controller N)
    (hv : ctl.encoderVelocities = []) :
    (self.before ctl).1.momentum = self.momentum ∧
    (self.before ctl).1.gamma = self.gamma ∧
    (self.before ctl).1.tau = self.tau ∧
    (∀ i : Fin N,
      (self.before ctl).1.momentum_hat i =
        self.momentum_hat i
          + (self.gamma i + self.tau_ext_hat i
              + self.alpha_1 * (self.momentum i - self.momentum_hat i)) * self.dt ∧
      (self.before ctl).1.tau_ext_hat i =
        self.tau_ext_hat i + self.alpha_2 * (self.momentum i - self.momentum_hat i) * self.dt) ∧
    (self.before ctl).1.lpf_threshold_ =
      (LpfThreshold.adaptiveThreshold
        (self.lpf_threshold_.adaptiveThreshold
          (fun i => self.momentum i - self.momentum_hat i) true).1
        (fun i => self.momentum i - self.momentum_hat i) false).1 := by
  have hc := computeGammaAndMomentum_of_empty self ctl hv
  have he := before_estimator self ctl
  rw [hc] at he
  refine ⟨he.1, he.2.1, he.2.2.1, ?_, ?_⟩
  · intro i
    exact ⟨congrFun he.2.2.2.2.1 i, congrFun he.2.2.2.2.2 i⟩
  · rw [← he.2.2.2.1]; exact (before_threshold self ctl).2.2

/-- Witness of C4 (amended): the cycle with an empty feed right after `init()`. -/
theorem C4_dropout_holds_snapshot_and_updates_witness :
    ctlDropout.encoderVelocities = [] ∧
    (startState.before ctlDropout).1.momentum = startState.momentum ∧
    (startState.before ctlDropout).1.gamma = startState.gamma ∧
    (startState.before ctlDropout).1.momentum_hat 0 =
      startState.momentum_hat 0
        + (startState.gamma 0 + startState.tau_ext_hat 0
            + startState.alpha_1 * (startState.momentum 0 - startState.momentum_hat 0))
          * startState.dt :=
  ⟨rfl,
   (C4_dropout_holds_snapshot_and_updates startState ctlDropout rfl).1,
   (C4_dropout_holds_snapshot_and_updates startState ctlDropout rfl).2.1,
   ((C4_dropout_holds_snapshot_and_updates startState ctlDropout rfl).2.2.2.1 0).1⟩

/-- C5, counterexample: with the stop switch on and the datastore entry already `true`, a
quiet cycle (zero residual, no joint breaches) computes `obstacle_detected_ = false` and leaves
the entry at `true`. -/
theorem C5_flag_not_cleared_without_breach :
    startState.collision_stop_activated_ = true ∧
    ctlFlagSet.datastore = some true ∧
    (startState.before ctlFlagSet).1.obstacle_detected_ = false ∧
    (startState.before ctlFlagSet).2.datastore = some true := by
  simp [CollisionDetectionMomentumError.before,
    CollisionDetectionMomentumError.computeGammaAndMomentum,
    CollisionDetectionMomentumError.init, LpfThreshold.adaptiveThreshold,
    LpfThreshold.setValues, detectionLoop, List.finRange, startState, selfDefault,
    ctlStart, ctlFlagSet, Matrix.mulVec, Matrix.dotProduct]
  norm_num [abs_eq_max_neg, max_def]

/-- C5, amended: in a cycle of `before()` run with `collision_stop_activated_` on, the
datastore entry "Obstacle detected" is set to true when some joint breaches its band and is
left at its previous value when no joint does: the entry after the cycle is the disjunction of
the entry before the cycle and `obstacle_detected_` of the cycle. -/
theorem C5_flag_latched_when_stop_on {N : Nat} (self : CollisionDetectionMomentumError N)
    (ctl : Controller N) (flag : Bool) (hstop : self.collision_stop_activated_ = true)
    (hflag : ctl.datastore = some flag) :
    (self.before ctl).2.datastore = some (flag || (self.before ctl).1.obstacle_detected_) := by
  rw [(before_detection self ctl).2, detectionLoop_snd, ← (before_detection self ctl).1,
    hstop, hflag]
  cases (self.before ctl).1.obstacle_detected_ <;> simp

/-- Witness of C5 (amended): the disturbance cycle entered with the entry at `false`. -/
theorem C5_flag_latched_when_stop_on_witness :
    startState.collision_stop_activated_ = true ∧
    ctlJump.datastore = some false ∧
    (startState.before ctlJump).2.datastore =
      some (false || (startState.before ctlJump).1.obstacle_detected_) :=
  ⟨rfl, rfl, C5_flag_latched_when_stop_on startState ctlJump false rfl rfl⟩

/-- C7, counterexample: the state `p̂ = 2`, `τ̂_ext = 0`, `m = 1` receives twice the snapshot
`p = 2`, `γ = 1`, for which the residual is zero; after the two cycles `p̂ = 8039/4000`,
`τ̂_ext = −1/8000` and `m = 101/400`. -/
theorem C7_zero_residual_state_moves :
    (restState.computeGammaAndMomentum ctlSame).momentum 0 - restState.momentum_hat 0 = 0 ∧
    restState.momentum_hat 0 = 2 ∧
    restState.tau_ext_hat 0 = 0 ∧
    restState.lpf_threshold_.m 0 = 1 ∧
    ((restState.before ctlSame).1.before (restState.before ctlSame).2).1.momentum_hat 0
      = 8039/4000 ∧
    ((restState.before ctlSame).1.before (restState.before ctlSame).2).1.tau_ext_hat 0
      = -1/8000 ∧
    ((restState.before ctlSame).1.before (restState.before ctlSame).2).1.lpf_threshold_.m 0
      = 101/400 := by
  simp [CollisionDetectionMomentumError.before,
    CollisionDetectionMomentumError.computeGammaAndMomentum,
    CollisionDetectionMomentumError.init, LpfThreshold.adaptiveThreshold,
    LpfThreshold.setValues, restState, startState, selfDefault, ctlStart, ctlSame,
    Matrix.mulVec, Matrix.dotProduct]
  norm_num [abs_eq_max_neg, max_def]

/-- C7, amended: for every state and every snapshot `(p, γ)` such that the residual is zero
(`p = p̂`), the drift is balanced (`γ + τ̂_ext = 0` in every joint) and the filter accumulator is
zero (`m = 0` in every joint), feeding that same snapshot to two consecutive cycles of
`before()` leaves `p̂`, `τ̂_ext` and `m` equal to their values before the first cycle. -/
theorem C7_rest_state_is_fixed_point {N : Nat} (self : CollisionDetectionMomentumError N)
    (ctl : Controller N)
    (hp : ∀ i : Fin N, (self.computeGammaAndMomentum ctl).momentum i = self.momentum_hat i)
    (hγ : ∀ i : Fin N, (self.computeGammaAndMomentum ctl).gamma i + self.tau_ext_hat i = 0)
    (hm : ∀ i : Fin N, self.lpf_threshold_.m i = 0) :
    ((self.before ctl).1.before (self.before ctl).2).1.momentum_hat = self.momentum_hat ∧
    ((self.before ctl).1.before (self.before ctl).2).1.tau_ext_hat = self.tau_ext_hat ∧
    ((self.before ctl).1.before (self.before ctl).2).1.lpf_threshold_.m
      = self.lpf_threshold_.m := by
  have step : ∀ (s : CollisionDetectionMomentumError N) (c : Controller N),
      (∀ i : Fin N, (s.computeGammaAndMomentum c).momentum i = s.momentum_hat i) →
      (∀ i : Fin N, (s.computeGammaAndMomentum c).gamma i + s.tau_ext_hat i = 0) →
      (∀ i : Fin N, s.lpf_threshold_.m i = 0) →
      (s.before c).1.momentum_hat = s.momentum_hat ∧
      (s.before c).1.tau_ext_hat = s.tau_ext_hat ∧
      (s.before c).1.lpf_threshold_.m = s.lpf_threshold_.m := by
    intro s c h1 h2 h3
    have he := before_estimator s c
    refine ⟨?_, ?_, ?_⟩
    · rw [he.2.2.2.2.1]
      funext i
      rw [h1 i, sub_self, mul_zero, add_zero, h2 i, zero_mul, add_zero]
    · rw [he.2.2.2.2.2]
      funext i
      rw [h1 i, sub_self, mul_zero, zero_mul, add_zero]
    · funext i
      have ha := (before_filter_step s c i).1
      have hr : (s.before c).1.momentum_error i = 0 := by
        rw [he.2.2.2.1]
        simp [h1 i]
      rw [hr, abs_zero, mul_zero, add_zero, h3 i, mul_zero] at ha
      rw [ha, h3 i]
  have first := step self ctl hp hγ hm
  have snap := computeGammaAndMomentum_same_snapshot self ctl
  have second := step (self.before ctl).1 (self.before ctl).2
    (fun i => by rw [snap.1, first.1]; exact hp i)
    (fun i => by rw [snap.2, first.2.1]; exact hγ i)
    (fun i => by rw [first.2.2]; exact hm i)
  exact ⟨second.1.trans first.1, second.2.1.trans first.2.1, second.2.2.trans first.2.2⟩

/-- Witness of C7 (amended): the state right after `init()` (`p̂ = 2`, `τ̂_ext = 0`, `m = 0`)
fed the rest snapshot `p = 2`, `γ = 0`. -/
theorem C7_rest_state_is_fixed_point_witness :
    ((startState.before ctlRest).1.before (startState.before ctlRest).2).1.momentum_hat
      = startState.momentum_hat ∧
    ((startState.before ctlRest).1.before (startState.before ctlRest).2).1.tau_ext_hat
      = startState.tau_ext_hat ∧
    ((startState.before ctlRest).1.before (startState.before ctlRest).2).1.lpf_threshold_.m
      = startState.lpf_threshold_.m :=
  C7_rest_state_is_fixed_point startState ctlRest
    (fun i => by
      simp [CollisionDetectionMomentumError.computeGammaAndMomentum,
        CollisionDetectionMomentumError.init, startState, selfDefault, ctlStart, ctlRest,
        Matrix.mulVec, Matrix.dotProduct])
    (fun i => by
      simp [CollisionDetectionMomentumError.computeGammaAndMomentum,
        CollisionDetectionMomentumError.init, startState, selfDefault, ctlStart, ctlRest,
        Matrix.mulVec, Matrix.dotProduct])
    (fun i => by
      simp [CollisionDetectionMomentumError.init, LpfThreshold.setValues, startState,
        selfDefault, ctlStart])

/-- C8, counterexample: with offset `o = 1/10`, the bound vectors held right after `init()`
are `0` and `0`, not `1/10` and `−1/10`. -/
theorem C8_bounds_after_init_are_zero_not_offset :
    selfDefault.threshold_offset_ = 1/10 ∧
    (selfDefault.init ctlStart).1.momentum_error_high_ 0 = 0 ∧
    (selfDefault.init ctlStart).1.momentum_error_low_ 0 = 0 := by
  simp [CollisionDetectionMomentumError.init, selfDefault]

/-- C8, amended: for every initial snapshot and every offset `o`, immediately after `init()`
and before the first cycle the bound vectors held by the observer are zero in every joint
(`r_high[i] = 0`, `r_low[i] = 0`) and the filter accumulator is zero; the values
`r_high[i] = o` and `r_low[i] = −o` are the bounds produced by the first cycle when the
residual of that cycle is zero. -/
theorem C8_bounds_at_init_and_first_cycle {N : Nat} (self : CollisionDetectionMomentumError N)
    (ctl first : Controller N)
    (hzero : ∀ i : Fin N, ((self.init ctl).1.computeGammaAndMomentum first).momentum i
      = (self.init ctl).1.momentum_hat i)
    (i : Fin N) :
    (self.init ctl).1.momentum_error_high_ i = 0 ∧
    (self.init ctl).1.momentum_error_low_ i = 0 ∧
    (self.init ctl).1.lpf_threshold_.m i = 0 ∧
    ((self.init ctl).1.before first).1.momentum_error_high_ i = self.threshold_offset_ ∧
    ((self.init ctl).1.before first).1.momentum_error_low_ i = -self.threshold_offset_ := by
  have hr : ((self.init ctl).1.before first).1.momentum_error i = 0 := by
    rw [(before_estimator (self.init ctl).1 first).2.2.2.1]
    simp [hzero i]
  obtain ⟨hm, -, ho, hhigh, hlow⟩ := before_filter_step (self.init ctl).1 first i
  rw [hr] at hm
  have hm0 : ((self.init ctl).1.before first).1.lpf_threshold_.m i = 0 := by
    rw [hm]
    simp [CollisionDetectionMomentumError.init, LpfThreshold.setValues]
  have ho0 : ((self.init ctl).1.before first).1.lpf_threshold_.offset
      = self.threshold_offset_ := by
    rw [ho]
    simp [CollisionDetectionMomentumError.init, LpfThreshold.setValues]
  refine ⟨rfl, rfl, rfl, ?_, ?_⟩
  · rw [hhigh, hm0, ho0, zero_add]
  · rw [hlow, hm0, ho0, zero_add]

/-- Witness of C8 (amended): `init()` on the start-up controller, then a first cycle with
the same momentum. -/
theorem C8_bounds_at_init_and_first_cycle_witness :
    (selfDefault.init ctlStart).1.momentum_error_high_ 0 = 0 ∧
    (selfDefault.init ctlStart).1.momentum_error_low_ 0 = 0 ∧
    (selfDefault.init ctlStart).1.lpf_threshold_.m 0 = 0 ∧
    ((selfDefault.init ctlStart).1.before ctlSame).1.momentum_error_high_ 0
      = selfDefault.threshold_offset_ ∧
    ((selfDefault.init ctlStart).1.before ctlSame).1.momentum_error_low_ 0
      = -selfDefault.threshold_offset_ :=
  C8_bounds_at_init_and_first_cycle selfDefault ctlStart ctlSame
    (fun i => by
      simp [CollisionDetectionMomentumError.computeGammaAndMomentum,
        CollisionDetectionMomentumError.init, selfDefault, ctlStart, ctlSame,
        Matrix.mulVec, Matrix.dotProduct])
    0

end mc_plugin
